import Mathlib

/-!
Shallow embedding of `src/index.py`: a serverless document-processing handler.

The single entry point `lambda_handler` either acts as a CloudFormation
custom-resource handler (`apply_bucket_policy` + `send_cfn_response`) or runs
the S3 ingestion flow (fetch, summarize via OpenRouter with retry, DynamoDB
write behind a 400 KB size check, SNS publish).

External collaborators (S3, SSM/OpenRouter, DynamoDB, SNS, the HTTP PUT to the
CloudFormation response URL) are modelled by an oracle `World` that fixes the
outcome of each external call; the embedding threads an explicit trace of
attempted side effects (`Effect`).  A Python exception is an `Except.error`;
`try/except` blocks become explicit handling of that value.  Environment
variables `TABLE_NAME` and `TOPIC_ARN` are modelled as configured strings
(`Env`), and the three feature flags as the `Config` record.
-/

/-- Execution-context handle: only the log stream identifier is used. -/
structure Ctx where
  log_stream_name : String
deriving DecidableEq

/-- `ResourceProperties` map of a CloudFormation custom-resource event.
`PolicyDocument` is modelled by its canonical JSON serialization
(the code only ever passes it to `json.dumps`). -/
structure RProps where
  BucketName : Option String
  PolicyDocument : Option String
deriving DecidableEq

/-- The `s3` sub-object of an S3 event record: `bucket.name` and `object.key`. -/
structure S3Info where
  bucket_name : String
  object_key : String
deriving DecidableEq

/-- One entry of the event's `Records` list. -/
structure Rec where
  s3 : Option S3Info
deriving DecidableEq

/-- The incoming Lambda event, as a record of the keys the handler reads.
`none` models an absent key. -/
structure Event where
  RequestType : Option String
  ResourceProperties : Option RProps
  Records : Option (List Rec)
  PhysicalResourceId : Option String
  StackId : Option String
  RequestId : Option String
  LogicalResourceId : Option String
  ResponseURL : Option String
deriving DecidableEq

/-- The `Data` payload of a CloudFormation response: the code sends either the
default empty dict, a `Message` dict, or an `Error` dict. -/
inductive CfnData where
  | empty : CfnData
  | message (s : String) : CfnData
  | error (s : String) : CfnData
deriving DecidableEq

/-- The CloudFormation response body built by `send_cfn_response`. -/
structure CfnBody where
  Status : String
  Reason : String
  PhysicalResourceId : String
  StackId : String
  RequestId : String
  LogicalResourceId : String
  Data : CfnData
deriving DecidableEq

/-- `message.content` of one chat-completion choice (`None` or a string). -/
structure Msg where
  content : Option String
deriving DecidableEq

/-- One element of `resp.choices`. -/
structure Choice where
  message : Msg
deriving DecidableEq

/-- An OpenRouter chat-completion response, as far as the code reads it. -/
structure ChatResp where
  choices : List Choice
deriving DecidableEq

/-- Feature flags (env vars `ENABLE_OPENROUTER`, `ENABLE_DYNAMODB`, `ENABLE_SNS`). -/
structure Config where
  ENABLE_OPENROUTER : Bool
  ENABLE_DYNAMODB : Bool
  ENABLE_SNS : Bool
deriving DecidableEq

/-- Configured environment values used by the ingestion steps. -/
structure Env where
  TABLE_NAME : String
  TOPIC_ARN : String
deriving DecidableEq

/-- Attempted external side effects, in program order. -/
inductive Effect where
  | putBucketPolicy (bucket policy : String) : Effect
  | deleteBucketPolicy (bucket : String) : Effect
  | cfnPut (url : String) (body : CfnBody) : Effect
  | s3Get (bucket key : String) : Effect
  | llmCall (prompt : String) : Effect
  | ddbPut (table key bucket text summary : String) : Effect
  | snsPublish (topic subject message : String) : Effect
deriving DecidableEq

/-- Oracle fixing the outcome of every external call.  `some e` means the call
raises an exception with text `e`.  `llmAttempt i` is the outcome of the
`i`-th OpenRouter attempt (credential retrieval, client construction and the
completion request together, since the retry decorator wraps all of them). -/
structure World where
  s3GetResult : Except String String
  llmAttempt : Nat → Except String ChatResp
  putPolicyError : Option String
  deletePolicyError : Option String
  cfnPutError : Option String
  ddbPutError : Option String
  snsPublishError : Option String

/-- The value returned by the Python handler: `None` or a status dict. -/
inductive PyVal where
  | none : PyVal
  | result (statusCode : Nat) (body : String) : PyVal
deriving DecidableEq

/-- Python truthiness of `event.get(k)` for a string-valued key:
present and non-empty. -/
def optStrTruthy : Option String → Bool
  | some s => s != ""
  | Option.none => false

/-- Python truthiness of the `ResourceProperties` dict: non-empty. -/
def rpTruthy (rp : RProps) : Bool :=
  rp.BucketName.isSome || rp.PolicyDocument.isSome

/-- Line 125: `event.get('RequestType') and event.get('ResourceProperties')
and 'BucketName' in event['ResourceProperties']`. -/
def isProvisioning (evt : Event) : Bool :=
  optStrTruthy evt.RequestType &&
    (match evt.ResourceProperties with
     | some rp => rpTruthy rp && rp.BucketName.isSome
     | Option.none => false)

/-- Lines 129-134: the validated first record's `s3` object, `none` when the
`Records` check fails (absent or empty list, or first record without `s3`). -/
def recordsS3 (evt : Event) : Option S3Info :=
  match evt.Records with
  | some (r :: _) => r.s3
  | _ => Option.none

/-! ### Python `json.dumps` string encoder (`ensure_ascii=True` default) -/

/-- Lowercase hex digit. -/
def hexDigit (n : Nat) : Char :=
  if n < 10 then Char.ofNat (48 + n) else Char.ofNat (87 + n)

/-- Four lowercase hex digits of `n % 0x10000`. -/
def hex4 (n : Nat) : String :=
  String.mk [hexDigit (n / 4096 % 16), hexDigit (n / 256 % 16),
             hexDigit (n / 16 % 16), hexDigit (n % 16)]

/-- `\uXXXX` escape, with a surrogate pair for code points above `0xFFFF`. -/
def pyUEscape (n : Nat) : String :=
  if n < 65536 then "\\u" ++ hex4 n
  else
    "\\u" ++ hex4 (55296 + (n - 65536) / 1024) ++ "\\u" ++ hex4 (56320 + (n - 65536) % 1024)

/-- How `json.dumps` renders one character: literal for printable ASCII other
than quote and backslash, two-character escapes for the usual controls,
`\uXXXX` otherwise. -/
def pyEscapeChar (c : Char) : String :=
  if c = '"' then "\\\""
  else if c = '\\' then "\\\\"
  else if c = '\n' then "\\n"
  else if c = '\r' then "\\r"
  else if c = '\t' then "\\t"
  else if c.toNat = 8 then "\\b"
  else if c.toNat = 12 then "\\f"
  else if 32 ≤ c.toNat && c.toNat ≤ 126 then String.singleton c
  else pyUEscape c.toNat

/-- Escape every character of a character list. -/
def pyEscAux : List Char → String
  | [] => ""
  | c :: cs => pyEscapeChar c ++ pyEscAux cs

/-- `json.dumps` of a Python string. -/
def pyJsonDumpsStr (s : String) : String :=
  "\"" ++ pyEscAux s.data ++ "\""

/-- Line 162: `json.dumps(item)` for the DynamoDB item
`{'NomFichier': key, 'Bucket': bucket, 'Texte': text, 'Résumé': summary}`
(insertion order, default separators). -/
def pyJsonDumpsItem (key bucket text summary : String) : String :=
  "\x7b" ++ pyJsonDumpsStr "NomFichier" ++ ": " ++ pyJsonDumpsStr key ++
  ", " ++ pyJsonDumpsStr "Bucket" ++ ": " ++ pyJsonDumpsStr bucket ++
  ", " ++ pyJsonDumpsStr "Texte" ++ ": " ++ pyJsonDumpsStr text ++
  ", " ++ pyJsonDumpsStr "Résumé" ++ ": " ++ pyJsonDumpsStr summary ++ "\x7d"

/-! ### External-call primitives -/

/-- `s3.put_bucket_policy(Bucket=bucket, Policy=policy)`. -/
def s3_put_bucket_policy (w : World) (bucket policy : String) :
    Except String Unit × List Effect :=
  ((match w.putPolicyError with
    | some e => Except.error e
    | Option.none => Except.ok ()), [Effect.putBucketPolicy bucket policy])

/-- `s3.delete_bucket_policy(Bucket=bucket)`. -/
def s3_delete_bucket_policy (w : World) (bucket : String) :
    Except String Unit × List Effect :=
  ((match w.deletePolicyError with
    | some e => Except.error e
    | Option.none => Except.ok ()), [Effect.deleteBucketPolicy bucket])

/-- `http.request('PUT', url, body=..., headers=...)`; the value is the HTTP
status of the response. -/
def http_put (w : World) (url : String) (body : CfnBody) :
    Except String Nat × List Effect :=
  ((match w.cfnPutError with
    | some e => Except.error e
    | Option.none => Except.ok 200), [Effect.cfnPut url body])

/-- `table.put_item(Item=item)`. -/
def ddb_put_item (w : World) (table key bucket text summary : String) :
    Except String Unit × List Effect :=
  ((match w.ddbPutError with
    | some e => Except.error e
    | Option.none => Except.ok ()), [Effect.ddbPut table key bucket text summary])

/-- `sns.publish(TopicArn=topic, Subject=subject, Message=message)`. -/
def sns_publish (w : World) (topic subject message : String) :
    Except String Unit × List Effect :=
  ((match w.snsPublishError with
    | some e => Except.error e
    | Option.none => Except.ok ()), [Effect.snsPublish topic subject message])

/-! ### `send_cfn_response` (lines 47-79) -/

/-- Lines 51-59: the response body.  Only well-defined once the three
mandatory identifiers have been looked up. -/
def mkCfnBody (ctx : Ctx) (status : String) (physId stackId requestId logicalId : String)
    (response_data : CfnData) : CfnBody :=
  { Status := status
    Reason := "See CloudWatch Log Stream: " ++ ctx.log_stream_name
    PhysicalResourceId := physId
    StackId := stackId
    RequestId := requestId
    LogicalResourceId := logicalId
    Data := response_data }

/-- Lines 47-79.  The body dict is built BEFORE the `try` block, so a missing
`StackId`/`RequestId`/`LogicalResourceId` raises a `KeyError` that propagates
to the caller.  Inside the `try`, the `ResponseURL` lookup and the PUT are
guarded: any exception there is caught and the function returns `False`. -/
def send_cfn_response (evt : Event) (ctx : Ctx) (w : World) (status : String)
    (response_data : CfnData) : Except String Bool × List Effect :=
  match evt.StackId, evt.RequestId, evt.LogicalResourceId with
  | Option.none, _, _ => (Except.error "KeyError: StackId", [])
  | some _, Option.none, _ => (Except.error "KeyError: RequestId", [])
  | some _, some _, Option.none => (Except.error "KeyError: LogicalResourceId", [])
  | some stackId, some requestId, some logicalId =>
    let body := mkCfnBody ctx status (evt.PhysicalResourceId.getD ctx.log_stream_name)
      stackId requestId logicalId response_data
    match evt.ResponseURL with
    | Option.none => (Except.ok false, [])
    | some url =>
      match http_put w url body with
      | (Except.ok _, fx) => (Except.ok true, fx)
      | (Except.error _, fx) => (Except.ok false, fx)

/-! ### `apply_bucket_policy` (lines 81-117) -/

/-- Lines 83-110: the body of the outer `try`.  Dictionary lookups that can
raise `KeyError` are explicit; `send_cfn_response`'s own pre-`try` exceptions
escape this block too. -/
def apply_bucket_policy_try (evt : Event) (ctx : Ctx) (w : World) :
    Except String Unit × List Effect :=
  match evt.RequestType with
  | Option.none => (Except.error "KeyError: RequestType", [])
  | some rt =>
    if rt = "Create" || rt = "Update" then
      match evt.ResourceProperties with
      | Option.none => (Except.error "KeyError: ResourceProperties", [])
      | some rp =>
        match rp.BucketName with
        | Option.none => (Except.error "KeyError: BucketName", [])
        | some bucket =>
          match rp.PolicyDocument with
          | Option.none => (Except.error "KeyError: PolicyDocument", [])
          | some policy =>
            match s3_put_bucket_policy w bucket policy with
            | (Except.error e, fx) => (Except.error e, fx)
            | (Except.ok _, fx) =>
              match send_cfn_response evt ctx w "SUCCESS"
                  (CfnData.message ("Bucket policy applied successfully to " ++ bucket)) with
              | (Except.error e, fx2) => (Except.error e, fx ++ fx2)
              | (Except.ok _, fx2) => (Except.ok (), fx ++ fx2)
    else if rt = "Delete" then
      match evt.ResourceProperties with
      | Option.none => (Except.error "KeyError: ResourceProperties", [])
      | some rp =>
        match rp.BucketName with
        | Option.none => (Except.error "KeyError: BucketName", [])
        | some bucket =>
          -- inner try (lines 102-106): a failing delete_bucket_policy is
          -- caught and only logged
          let fx := (s3_delete_bucket_policy w bucket).2
          match send_cfn_response evt ctx w "SUCCESS"
              (CfnData.message ("Bucket policy removal completed for " ++ bucket)) with
          | (Except.error e, fx2) => (Except.error e, fx ++ fx2)
          | (Except.ok _, fx2) => (Except.ok (), fx ++ fx2)
    else
      -- no branch matches: the function body completes without responding
      (Except.ok (), [])

/-- Lines 81-117.  The `except` (lines 112-117) reports `FAILED`; an exception
raised by that `send_cfn_response` call itself propagates out. -/
def apply_bucket_policy (evt : Event) (ctx : Ctx) (w : World) :
    Except String Unit × List Effect :=
  match apply_bucket_policy_try evt ctx w with
  | (Except.ok _, fx) => (Except.ok (), fx)
  | (Except.error e, fx) =>
    match send_cfn_response evt ctx w "FAILED" (CfnData.error e) with
    | (Except.error e2, fx2) => (Except.error e2, fx ++ fx2)
    | (Except.ok _, fx2) => (Except.ok (), fx ++ fx2)

/-! ### `call_openrouter` (lines 35-44) with tenacity retry -/

/-- The fixed French instruction plus the first 1000 characters of the text
(line 42, `text[:1000]` slices by code point). -/
def openrouterPrompt (text : String) : String :=
  "Résume ce texte de manière concise en français :\n\n" ++ text.take 1000

/-- The tenacity loop `@retry(stop=stop_after_attempt(3), wait=wait_fixed(2))`:
attempt `i` with `fuel` attempts remaining; on success return the response, on
an exception retry unless the attempt budget is exhausted, in which case the
(wrapped) exception propagates.  Every attempt records one `llmCall` effect. -/
def retryLoop (w : World) (prompt : String) : Nat → Nat → Except String ChatResp × List Effect
  | _, 0 => (Except.error "RetryError", [])
  | i, Nat.succ n =>
    match w.llmAttempt i with
    | Except.ok resp => (Except.ok resp, [Effect.llmCall prompt])
    | Except.error e =>
      if n = 0 then (Except.error e, [Effect.llmCall prompt])
      else
        ((retryLoop w prompt (i + 1) n).1,
          Effect.llmCall prompt :: (retryLoop w prompt (i + 1) n).2)

/-- Lines 35-44: up to 3 total attempts of the whole call (credential fetch,
client construction, completion request). -/
def call_openrouter (w : World) (text : String) : Except String ChatResp × List Effect :=
  retryLoop w (openrouterPrompt text) 0 3

/-- The placeholder summary (line 144). -/
def placeholderSummary : String := "Résumé non généré."

/-- Python truthiness of `resp.choices[0].message.content`. -/
def contentTruthy : Option String → Bool
  | some s => s != ""
  | Option.none => false

/-- Lines 147-155: the summary determined by the outcome of `call_openrouter`:
the first choice's content when present and truthy (line 148), otherwise the
placeholder; an exception is caught and keeps the placeholder. -/
def summary_of_resp (r : Except String ChatResp) : String :=
  match r with
  | Except.ok resp =>
    match resp.choices with
    | [] => placeholderSummary
    | ch :: _ =>
      match ch.message.content with
      | some c => if c != "" then c else placeholderSummary
      | Option.none => placeholderSummary
  | Except.error _ => placeholderSummary

/-- Lines 144-155 (step 2): the summary after the flag-gated, fault-isolated
OpenRouter call, with the effects of the attempts made. -/
def openrouter_step (cfg : Config) (w : World) (text : String) : String × List Effect :=
  if cfg.ENABLE_OPENROUTER then
    (summary_of_resp (call_openrouter w text).1, (call_openrouter w text).2)
  else (placeholderSummary, [])

/-- Lines 158-169 (step 3): flag-gated, fault-isolated DynamoDB write.  The
item size is checked first; an oversized item raises `ValueError` before the
put, so no write is attempted.  Any error from the put itself is caught and
only logged. -/
def dynamodb_step (cfg : Config) (env : Env) (w : World)
    (key bucket text summary : String) : List Effect :=
  if cfg.ENABLE_DYNAMODB then
    if 400000 < (pyJsonDumpsItem key bucket text summary).utf8ByteSize then []
    else (ddb_put_item w env.TABLE_NAME key bucket text summary).2
  else []

/-- Lines 172-187 (step 4): flag-gated, fault-isolated SNS publish. -/
def sns_step (cfg : Config) (env : Env) (w : World)
    (key bucket summary : String) : List Effect :=
  if cfg.ENABLE_SNS then
    (sns_publish w env.TOPIC_ARN
      ("Nouveau fichier dans S3 : " ++ key)
      ("Un fichier nommé \x27" ++ key ++ "\x27 a été déposé dans le bucket \x27" ++
        bucket ++ "\x27.\n\nRésumé du contenu :\n\n" ++ summary.take 1000)).2
  else []

/-- Lines 119-201: the entry point.  The outer `try/except` converts any
uncaught exception into `{'statusCode': 500, 'body': json.dumps('Lambda error')}`;
a completed ingestion flow returns `{'statusCode': 200, 'body': json.dumps('Success')}`;
the provisioning path returns `apply_bucket_policy`'s value, i.e. `None`. -/
def lambda_handler (evt : Event) (ctx : Ctx) (cfg : Config) (env : Env) (w : World) :
    PyVal × List Effect :=
  if isProvisioning evt then
    match apply_bucket_policy evt ctx w with
    | (Except.ok _, fx) => (PyVal.none, fx)
    | (Except.error _, fx) => (PyVal.result 500 (pyJsonDumpsStr "Lambda error"), fx)
  else
    match recordsS3 evt with
    | Option.none => (PyVal.result 500 (pyJsonDumpsStr "Lambda error"), [])
    | some info =>
      match w.s3GetResult with
      | Except.error _ =>
        (PyVal.result 500 (pyJsonDumpsStr "Lambda error"),
          [Effect.s3Get info.bucket_name info.object_key])
      | Except.ok text =>
        (PyVal.result 200 (pyJsonDumpsStr "Success"),
          Effect.s3Get info.bucket_name info.object_key ::
            ((openrouter_step cfg w text).2 ++
             dynamodb_step cfg env w info.object_key info.bucket_name text
               (openrouter_step cfg w text).1 ++
             sns_step cfg env w info.object_key info.bucket_name
               (openrouter_step cfg w text).1))

/-! ### Effect classifiers -/

/-- Is this effect the callback PUT? -/
def Effect.isCfnPut : Effect → Bool
  | Effect.cfnPut _ _ => true
  | _ => false

/-- Is this effect a DynamoDB write attempt? -/
def Effect.isDdbPut : Effect → Bool
  | Effect.ddbPut _ _ _ _ _ => true
  | _ => false

/-- Is this effect an SNS publish attempt? -/
def Effect.isSnsPublish : Effect → Bool
  | Effect.snsPublish _ _ _ => true
  | _ => false

/-- Effects not controlled by the persistence/notification flags. -/
def Effect.nonFlagged (e : Effect) : Bool :=
  !(e.isDdbPut || e.isSnsPublish)

/-! ### Helper lemmas -/

/-- When the three mandatory identifiers and the response URL are present,
`send_cfn_response` attempts exactly one PUT with the constructed body,
returns `True` exactly when the transport call succeeds, and raises nothing. -/
theorem send_cfn_response_eq (evt : Event) (ctx : Ctx) (w : World) (status : String)
    (d : CfnData) (sid rid lid url : String)
    (hs : evt.StackId = some sid) (hq : evt.RequestId = some rid)
    (hl : evt.LogicalResourceId = some lid) (hu : evt.ResponseURL = some url) :
    send_cfn_response evt ctx w status d =
      (Except.ok w.cfnPutError.isNone,
        [Effect.cfnPut url (mkCfnBody ctx status (evt.PhysicalResourceId.getD ctx.log_stream_name)
          sid rid lid d)]) := by
  simp only [send_cfn_response, hs, hq, hl, hu, http_put]
  cases h : w.cfnPutError <;> simp [h]

/-- Any PUT effect emitted by `send_cfn_response` carries the defaulted
physical resource id, the fixed log-stream `Reason`, the given status, and the
event's identifiers. -/
theorem send_cfn_response_mem (evt : Event) (ctx : Ctx) (w : World) (status : String)
    (d : CfnData) (url : String) (body : CfnBody)
    (h : Effect.cfnPut url body ∈ (send_cfn_response evt ctx w status d).2) :
    body.PhysicalResourceId = evt.PhysicalResourceId.getD ctx.log_stream_name ∧
    body.Reason = "See CloudWatch Log Stream: " ++ ctx.log_stream_name ∧
    body.Status = status ∧
    evt.StackId = some body.StackId ∧ evt.RequestId = some body.RequestId ∧
    evt.LogicalResourceId = some body.LogicalResourceId := by
  unfold send_cfn_response at h
  rcases hs : evt.StackId with _ | sid <;> rw [hs] at h
  · simp at h
  rcases hq : evt.RequestId with _ | rid <;> rw [hq] at h
  · simp at h
  rcases hl : evt.LogicalResourceId with _ | lid <;> rw [hl] at h
  · simp at h
  rcases hu : evt.ResponseURL with _ | url' <;> rw [hu] at h
  · simp at h
  unfold http_put at h
  rcases hc : w.cfnPutError with _ | e <;> rw [hc] at h <;>
    simp only [List.mem_singleton] at h <;>
    rcases h with ⟨rfl, rfl⟩ <;> simp [mkCfnBody, hs, hq, hl]

/-- Every effect of `send_cfn_response` is a callback PUT. -/
theorem send_cfn_response_onlyPut (evt : Event) (ctx : Ctx) (w : World) (status : String)
    (d : CfnData) :
    ∀ e ∈ (send_cfn_response evt ctx w status d).2, e.isCfnPut = true := by
  intro e he
  unfold send_cfn_response at he
  rcases hs : evt.StackId with _ | sid <;> rw [hs] at he
  · simp at he
  rcases hq : evt.RequestId with _ | rid <;> rw [hq] at he
  · simp at he
  rcases hl : evt.LogicalResourceId with _ | lid <;> rw [hl] at he
  · simp at he
  rcases hu : evt.ResponseURL with _ | url <;> rw [hu] at he
  · simp at he
  unfold http_put at he
  rcases hc : w.cfnPutError with _ | err <;> rw [hc] at he <;>
    simp only [List.mem_singleton] at he <;> subst he <;> rfl

/-- The effects of the retry loop are some number (at most the attempt budget,
and at least one when the budget is positive) of identical `llmCall` records. -/
theorem retryLoop_trace (w : World) (p : String) :
    ∀ fuel i, ∃ k, k ≤ fuel ∧ (1 ≤ fuel → 1 ≤ k) ∧
      (retryLoop w p i fuel).2 = List.replicate k (Effect.llmCall p) := by
  intro fuel
  induction fuel with
  | zero => intro i; exact ⟨0, Nat.le_refl 0, by omega, rfl⟩
  | succ n ih =>
    intro i
    rcases hA : w.llmAttempt i with e | resp
    · by_cases hn : n = 0
      · exact ⟨1, by omega, fun _ => Nat.le_refl 1, by simp [retryLoop, hA, hn]⟩
      · rcases ih (i + 1) with ⟨k, hk, _, htr⟩
        exact ⟨k + 1, by omega, by omega, by simp [retryLoop, hA, hn, htr, List.replicate_succ]⟩
    · exact ⟨1, by omega, fun _ => Nat.le_refl 1, by simp [retryLoop, hA]⟩

/-- If every attempt in the budget window raises, the loop makes exactly
`fuel` attempts and the exception propagates. -/
theorem retryLoop_allFail (w : World) (p : String) :
    ∀ fuel i, 1 ≤ fuel → (∀ j, i ≤ j → j < i + fuel → ∃ e, w.llmAttempt j = Except.error e) →
      (∃ e, (retryLoop w p i fuel).1 = Except.error e) ∧
      (retryLoop w p i fuel).2.length = fuel := by
  intro fuel
  induction fuel with
  | zero => omega
  | succ n ih =>
    intro i _ hall
    rcases hall i (Nat.le_refl i) (by omega) with ⟨e, hA⟩
    by_cases hn : n = 0
    · subst hn
      exact ⟨⟨e, by simp [retryLoop, hA]⟩, by simp [retryLoop, hA]⟩
    · have hrec := ih (i + 1) (by omega) (fun j h1 h2 => hall j (by omega) (by omega))
      refine ⟨⟨hrec.1.choose, ?_⟩, ?_⟩
      · simpa [retryLoop, hA, hn] using hrec.1.choose_spec
      · simp [retryLoop, hA, hn, hrec.2]

/-- If attempt `m` (inside the budget window) succeeds and all earlier
attempts raise, the loop returns that response after `m - i + 1` attempts. -/
theorem retryLoop_firstOk (w : World) (p : String) :
    ∀ fuel i m resp, i ≤ m → m < i + fuel → w.llmAttempt m = Except.ok resp →
      (∀ j, i ≤ j → j < m → ∃ e, w.llmAttempt j = Except.error e) →
      (retryLoop w p i fuel).1 = Except.ok resp ∧
      (retryLoop w p i fuel).2.length = m - i + 1 := by
  intro fuel
  induction fuel with
  | zero => omega
  | succ n ih =>
    intro i m resp him hm hok hprev
    by_cases hi : i = m
    · subst hi
      exact ⟨by simp [retryLoop, hok], by simp [retryLoop, hok]⟩
    · rcases hprev i (Nat.le_refl i) (by omega) with ⟨e, hA⟩
      have hn : n ≠ 0 := by omega
      have hrec := ih (i + 1) m resp (by omega) (by omega) hok
        (fun j h1 h2 => hprev j (by omega) h2)
      refine ⟨?_, ?_⟩
      · simpa [retryLoop, hA, hn] using hrec.1
      · simp only [retryLoop, hA, hn]
        simp [hrec.2]
        omega

/-- A successful result of the retry loop is the response of some attempt in
the budget window. -/
theorem retryLoop_ok_attempt (w : World) (p : String) :
    ∀ fuel i resp, (retryLoop w p i fuel).1 = Except.ok resp →
      ∃ j, i ≤ j ∧ j < i + fuel ∧ w.llmAttempt j = Except.ok resp := by
  intro fuel
  induction fuel with
  | zero => intro i resp h; simp [retryLoop] at h
  | succ n ih =>
    intro i resp h
    rcases hA : w.llmAttempt i with e | r
    · by_cases hn : n = 0
      · rw [retryLoop] at h; rw [hA] at h; simp [hn] at h
      · rw [retryLoop] at h; rw [hA] at h
        simp only [hn, if_false] at h
        rcases ih (i + 1) resp h with ⟨j, h1, h2, h3⟩
        exact ⟨j, by omega, by omega, h3⟩
    · rw [retryLoop] at h; rw [hA] at h
      simp only [] at h
      have : r = resp := by simpa using h
      exact ⟨i, Nat.le_refl i, by omega, this ▸ hA⟩

/-- The summarize step only records LLM-call effects. -/
theorem openrouter_step_mem (cfg : Config) (w : World) (text : String) :
    ∀ e ∈ (openrouter_step cfg w text).2, e = Effect.llmCall (openrouterPrompt text) := by
  intro e he
  rcases retryLoop_trace w (openrouterPrompt text) 3 0 with ⟨k, _, _, htr⟩
  unfold openrouter_step at he
  by_cases hflag : cfg.ENABLE_OPENROUTER <;> simp [hflag] at he
  have hcall : (call_openrouter w text).2 = List.replicate k (Effect.llmCall (openrouterPrompt text)) := htr
  rw [hcall] at he
  exact List.eq_of_mem_replicate he

/-- The persist step only records DynamoDB write effects. -/
theorem dynamodb_step_mem (cfg : Config) (env : Env) (w : World)
    (key bucket text summary : String) :
    ∀ e ∈ dynamodb_step cfg env w key bucket text summary,
      e = Effect.ddbPut env.TABLE_NAME key bucket text summary := by
  intro e he
  unfold dynamodb_step ddb_put_item at he
  by_cases hflag : cfg.ENABLE_DYNAMODB <;> simp [hflag] at he
  exact he.2

/-- The notify step only records SNS publish effects. -/
theorem sns_step_mem (cfg : Config) (env : Env) (w : World)
    (key bucket summary : String) :
    ∀ e ∈ sns_step cfg env w key bucket summary,
      e = Effect.snsPublish env.TOPIC_ARN
        ("Nouveau fichier dans S3 : " ++ key)
        ("Un fichier nommé \x27" ++ key ++ "\x27 a été déposé dans le bucket \x27" ++
          bucket ++ "\x27.\n\nRésumé du contenu :\n\n" ++ summary.take 1000) := by
  intro e he
  unfold sns_step sns_publish at he
  by_cases hflag : cfg.ENABLE_SNS <;> simp [hflag] at he
  exact he

/-- `lambda_handler` on a validated ingestion event whose fetch succeeds. -/
theorem lambda_handler_ingestion (evt : Event) (ctx : Ctx) (cfg : Config) (env : Env)
    (w : World) (info : S3Info) (text : String)
    (hprov : isProvisioning evt = false) (hrec : recordsS3 evt = some info)
    (hfetch : w.s3GetResult = Except.ok text) :
    lambda_handler evt ctx cfg env w =
      (PyVal.result 200 (pyJsonDumpsStr "Success"),
        Effect.s3Get info.bucket_name info.object_key ::
          ((openrouter_step cfg w text).2 ++
           dynamodb_step cfg env w info.object_key info.bucket_name text
             (openrouter_step cfg w text).1 ++
           sns_step cfg env w info.object_key info.bucket_name
             (openrouter_step cfg w text).1)) := by
  simp [lambda_handler, hprov, hrec, hfetch]

/-- `lambda_handler` when the S3-event validation fails. -/
theorem lambda_handler_invalid (evt : Event) (ctx : Ctx) (cfg : Config) (env : Env)
    (w : World) (hprov : isProvisioning evt = false) (hrec : recordsS3 evt = Option.none) :
    lambda_handler evt ctx cfg env w =
      (PyVal.result 500 (pyJsonDumpsStr "Lambda error"), []) := by
  simp [lambda_handler, hprov, hrec]

/-- `lambda_handler` when the fetch step raises. -/
theorem lambda_handler_fetchFail (evt : Event) (ctx : Ctx) (cfg : Config) (env : Env)
    (w : World) (info : S3Info) (e : String)
    (hprov : isProvisioning evt = false) (hrec : recordsS3 evt = some info)
    (hfetch : w.s3GetResult = Except.error e) :
    lambda_handler evt ctx cfg env w =
      (PyVal.result 500 (pyJsonDumpsStr "Lambda error"),
        [Effect.s3Get info.bucket_name info.object_key]) := by
  simp [lambda_handler, hprov, hrec, hfetch]

/-- On the provisioning route the handler's trace is `apply_bucket_policy`'s. -/
theorem lambda_handler_prov_trace (evt : Event) (ctx : Ctx) (cfg : Config) (env : Env)
    (w : World) (hprov : isProvisioning evt = true) :
    (lambda_handler evt ctx cfg env w).2 = (apply_bucket_policy evt ctx w).2 := by
  simp only [lambda_handler, hprov, if_true]
  rcases h : apply_bucket_policy evt ctx w with ⟨r, fx⟩
  rcases r with e | u <;> simp

/-- On the provisioning route, a completed `apply_bucket_policy` makes the
handler return `None` (the Python function's implicit return value). -/
theorem lambda_handler_prov_ok (evt : Event) (ctx : Ctx) (cfg : Config) (env : Env)
    (w : World) (hprov : isProvisioning evt = true)
    (hok : (apply_bucket_policy evt ctx w).1 = Except.ok ()) :
    (lambda_handler evt ctx cfg env w).1 = PyVal.none := by
  simp only [lambda_handler, hprov, if_true]
  rcases h : apply_bucket_policy evt ctx w with ⟨r, fx⟩
  rw [h] at hok
  simp only at hok
  subst hok
  simp

/-- Well-formedness of a provisioning-flow effect: it is neither a store write
nor a notification publish, and if it is a callback PUT its body carries the
defaulted physical resource id and the fixed log-stream reason. -/
def ProvEffectOK (evt : Event) (ctx : Ctx) (e : Effect) : Prop :=
  e.isDdbPut = false ∧ e.isSnsPublish = false ∧
  ∀ url body, e = Effect.cfnPut url body →
    body.PhysicalResourceId = evt.PhysicalResourceId.getD ctx.log_stream_name ∧
    body.Reason = "See CloudWatch Log Stream: " ++ ctx.log_stream_name

/-- Every effect of `send_cfn_response` is a well-formed provisioning effect. -/
theorem send_cfn_response_all (evt : Event) (ctx : Ctx) (w : World) (status : String)
    (d : CfnData) : ∀ e ∈ (send_cfn_response evt ctx w status d).2, ProvEffectOK evt ctx e := by
  intro e he
  have honly := send_cfn_response_onlyPut evt ctx w status d e he
  refine ⟨?_, ?_, ?_⟩
  · rcases e <;> simp_all [Effect.isCfnPut, Effect.isDdbPut]
  · rcases e <;> simp_all [Effect.isCfnPut, Effect.isSnsPublish]
  · intro url body heq
    subst heq
    have h := send_cfn_response_mem evt ctx w status d url body he
    exact ⟨h.1, h.2.1⟩

/-- Every effect of the `try` block of `apply_bucket_policy` is well-formed. -/
theorem apply_bucket_policy_try_all (evt : Event) (ctx : Ctx) (w : World) :
    ∀ e ∈ (apply_bucket_policy_try evt ctx w).2, ProvEffectOK evt ctx e := by
  intro e he
  unfold apply_bucket_policy_try at he
  rcases hrt : evt.RequestType with _ | rt <;> simp only [hrt] at he
  · simp at he
  by_cases hcu : (rt = "Create" || rt = "Update") = true
  · rw [if_pos hcu] at he
    rcases hrp : evt.ResourceProperties with _ | rp <;> simp only [hrp] at he
    · simp at he
    rcases hb : rp.BucketName with _ | bucket <;> simp only [hb] at he
    · simp at he
    rcases hpd : rp.PolicyDocument with _ | policy <;> simp only [hpd] at he
    · simp at he
    rcases hpp : w.putPolicyError with _ | perr
    · have hput : s3_put_bucket_policy w bucket policy =
          (Except.ok (), [Effect.putBucketPolicy bucket policy]) := by
        simp [s3_put_bucket_policy, hpp]
      rcases hsend : send_cfn_response evt ctx w "SUCCESS"
          (CfnData.message ("Bucket policy applied successfully to " ++ bucket)) with ⟨rs, fx2⟩
      rcases rs with es | bs <;> simp only [hput, hsend] at he <;>
        rcases List.mem_append.mp he with h1 | h2
      · simp only [List.mem_singleton] at h1
        subst h1
        exact ⟨rfl, rfl, by intro url body h; cases h⟩
      · exact send_cfn_response_all evt ctx w _ _ e (by rw [hsend]; exact h2)
      · simp only [List.mem_singleton] at h1
        subst h1
        exact ⟨rfl, rfl, by intro url body h; cases h⟩
      · exact send_cfn_response_all evt ctx w _ _ e (by rw [hsend]; exact h2)
    · have hput : s3_put_bucket_policy w bucket policy =
          (Except.error perr, [Effect.putBucketPolicy bucket policy]) := by
        simp [s3_put_bucket_policy, hpp]
      simp only [hput, List.mem_singleton] at he
      subst he
      exact ⟨rfl, rfl, by intro url body h; cases h⟩
  · rw [if_neg hcu] at he
    by_cases hdel : rt = "Delete"
    · rw [if_pos hdel] at he
      rcases hrp : evt.ResourceProperties with _ | rp <;> simp only [hrp] at he
      · simp at he
      rcases hb : rp.BucketName with _ | bucket <;> simp only [hb] at he
      · simp at he
      rcases hsend : send_cfn_response evt ctx w "SUCCESS"
          (CfnData.message ("Bucket policy removal completed for " ++ bucket)) with ⟨rs, fx2⟩
      rcases rs with es | bs <;>
        simp only [hsend, s3_delete_bucket_policy] at he <;>
        rcases List.mem_append.mp he with h1 | h2
      · simp only [List.mem_singleton] at h1
        subst h1
        exact ⟨rfl, rfl, by intro url body h; cases h⟩
      · exact send_cfn_response_all evt ctx w _ _ e (by rw [hsend]; exact h2)
      · simp only [List.mem_singleton] at h1
        subst h1
        exact ⟨rfl, rfl, by intro url body h; cases h⟩
      · exact send_cfn_response_all evt ctx w _ _ e (by rw [hsend]; exact h2)
    · rw [if_neg hdel] at he
      simp at he

/-- Every effect of `apply_bucket_policy` is well-formed. -/
theorem apply_bucket_policy_all (evt : Event) (ctx : Ctx) (w : World) :
    ∀ e ∈ (apply_bucket_policy evt ctx w).2, ProvEffectOK evt ctx e := by
  intro e he
  unfold apply_bucket_policy at he
  rcases htry : apply_bucket_policy_try evt ctx w with ⟨rt, fx⟩
  rcases rt with et | ut
  · rcases hsend : send_cfn_response evt ctx w "FAILED" (CfnData.error et) with ⟨rs, fx2⟩
    rcases rs with es | bs <;> simp only [htry, hsend] at he <;>
      rcases List.mem_append.mp he with h1 | h2
    · exact apply_bucket_policy_try_all evt ctx w e (by rw [htry]; exact h1)
    · exact send_cfn_response_all evt ctx w _ _ e (by rw [hsend]; exact h2)
    · exact apply_bucket_policy_try_all evt ctx w e (by rw [htry]; exact h1)
    · exact send_cfn_response_all evt ctx w _ _ e (by rw [hsend]; exact h2)
  · simp only [htry] at he
    exact apply_bucket_policy_try_all evt ctx w e (by rw [htry]; exact he)

/-- On a Delete request with bucket name and all callback fields present,
`apply_bucket_policy` attempts the policy removal and then exactly one PUT
reporting SUCCESS — whatever the removal outcome (`w.deletePolicyError`). -/
theorem apply_bucket_policy_delete (evt : Event) (ctx : Ctx) (w : World)
    (rp : RProps) (bucket sid rid lid url : String)
    (hrt : evt.RequestType = some "Delete")
    (hrp : evt.ResourceProperties = some rp) (hb : rp.BucketName = some bucket)
    (hs : evt.StackId = some sid) (hq : evt.RequestId = some rid)
    (hl : evt.LogicalResourceId = some lid) (hu : evt.ResponseURL = some url) :
    apply_bucket_policy evt ctx w =
      (Except.ok (),
        [Effect.deleteBucketPolicy bucket,
         Effect.cfnPut url (mkCfnBody ctx "SUCCESS"
           (evt.PhysicalResourceId.getD ctx.log_stream_name) sid rid lid
           (CfnData.message ("Bucket policy removal completed for " ++ bucket)))]) := by
  have hsend := send_cfn_response_eq evt ctx w "SUCCESS"
    (CfnData.message ("Bucket policy removal completed for " ++ bucket)) sid rid lid url
    hs hq hl hu
  simp [apply_bucket_policy, apply_bucket_policy_try, hrt, hrp, hb, hsend,
    s3_delete_bucket_policy]

/-- On a Create/Update request with bucket name and all callback fields
present, `apply_bucket_policy` completes without raising and attempts exactly
one PUT, reporting either SUCCESS or FAILED (FAILED when the policy document
is absent or the policy application raises). -/
theorem apply_bucket_policy_CU (evt : Event) (ctx : Ctx) (w : World)
    (rp : RProps) (rt bucket sid rid lid url : String)
    (hrt : evt.RequestType = some rt) (hcu : rt = "Create" ∨ rt = "Update")
    (hrp : evt.ResourceProperties = some rp) (hb : rp.BucketName = some bucket)
    (hs : evt.StackId = some sid) (hq : evt.RequestId = some rid)
    (hl : evt.LogicalResourceId = some lid) (hu : evt.ResponseURL = some url) :
    ∃ st d, (st = "SUCCESS" ∨ st = "FAILED") ∧
      (apply_bucket_policy evt ctx w).1 = Except.ok () ∧
      (apply_bucket_policy evt ctx w).2.filter Effect.isCfnPut =
        [Effect.cfnPut url (mkCfnBody ctx st
          (evt.PhysicalResourceId.getD ctx.log_stream_name) sid rid lid d)] := by
  have hcu' : (rt = "Create" || rt = "Update") = true := by
    rcases hcu with h | h <;> simp [h]
  rcases hpd : rp.PolicyDocument with _ | policy
  · -- KeyError: PolicyDocument → except branch reports FAILED
    have hsend := send_cfn_response_eq evt ctx w "FAILED"
      (CfnData.error "KeyError: PolicyDocument") sid rid lid url hs hq hl hu
    refine ⟨"FAILED", CfnData.error "KeyError: PolicyDocument", Or.inr rfl, ?_, ?_⟩ <;>
      simp [apply_bucket_policy, apply_bucket_policy_try, hrt, hcu', hrp, hb, hpd, hsend,
        Effect.isCfnPut]
  · rcases hpp : w.putPolicyError with _ | perr
    · -- policy applied: SUCCESS
      have hsend := send_cfn_response_eq evt ctx w "SUCCESS"
        (CfnData.message ("Bucket policy applied successfully to " ++ bucket)) sid rid lid url
        hs hq hl hu
      refine ⟨"SUCCESS", CfnData.message ("Bucket policy applied successfully to " ++ bucket),
        Or.inl rfl, ?_, ?_⟩ <;>
        simp [apply_bucket_policy, apply_bucket_policy_try, hrt, hcu', hrp, hb, hpd, hsend,
          s3_put_bucket_policy, hpp, Effect.isCfnPut]
    · -- put_bucket_policy raises: except branch reports FAILED
      have hsend := send_cfn_response_eq evt ctx w "FAILED"
        (CfnData.error perr) sid rid lid url hs hq hl hu
      refine ⟨"FAILED", CfnData.error perr, Or.inr rfl, ?_, ?_⟩ <;>
        simp [apply_bucket_policy, apply_bucket_policy_try, hrt, hcu', hrp, hb, hpd, hsend,
          s3_put_bucket_policy, hpp, Effect.isCfnPut]

/-- Every effect of an ingestion run is the fetch, an LLM attempt, the store
write, or the notification publish. -/
theorem ingestion_mem_classes (evt : Event) (ctx : Ctx) (cfg : Config) (env : Env)
    (w : World) (info : S3Info) (text : String)
    (hprov : isProvisioning evt = false) (hrec : recordsS3 evt = some info)
    (hfetch : w.s3GetResult = Except.ok text) :
    ∀ e ∈ (lambda_handler evt ctx cfg env w).2,
      e = Effect.s3Get info.bucket_name info.object_key ∨
      e = Effect.llmCall (openrouterPrompt text) ∨
      e = Effect.ddbPut env.TABLE_NAME info.object_key info.bucket_name text
        (openrouter_step cfg w text).1 ∨
      (∃ subject message, e = Effect.snsPublish env.TOPIC_ARN subject message) := by
  intro e he
  rw [lambda_handler_ingestion evt ctx cfg env w info text hprov hrec hfetch] at he
  rcases List.mem_cons.mp he with rfl | h2
  · exact Or.inl rfl
  rcases List.mem_append.mp h2 with h3 | h4
  · rcases List.mem_append.mp h3 with h5 | h6
    · exact Or.inr (Or.inl (openrouter_step_mem cfg w text e h5))
    · exact Or.inr (Or.inr (Or.inl (dynamodb_step_mem cfg env w _ _ _ _ e h6)))
  · exact Or.inr (Or.inr (Or.inr ⟨_, _, sns_step_mem cfg env w _ _ _ e h4⟩))

/-- An invocation not routed to the provisioning flow never attempts a
callback PUT. -/
theorem lambda_handler_noCfn (evt : Event) (ctx : Ctx) (cfg : Config) (env : Env)
    (w : World) (hprov : isProvisioning evt = false) :
    (lambda_handler evt ctx cfg env w).2.filter Effect.isCfnPut = [] := by
  rcases hrec : recordsS3 evt with _ | info
  · rw [lambda_handler_invalid evt ctx cfg env w hprov hrec]
    rfl
  · rcases hfetch : w.s3GetResult with e | text
    · rw [lambda_handler_fetchFail evt ctx cfg env w info e hprov hrec hfetch]
      rfl
    · apply List.filter_eq_nil_iff.mpr
      intro a ha
      rcases ingestion_mem_classes evt ctx cfg env w info text hprov hrec hfetch a ha with
        rfl | rfl | rfl | ⟨subject, message, rfl⟩ <;> simp [Effect.isCfnPut]

/-- The summarize step is driven only by the `ENABLE_OPENROUTER` flag. -/
theorem openrouter_step_flag (cfg cfg' : Config) (w : World) (text : String)
    (h : cfg.ENABLE_OPENROUTER = cfg'.ENABLE_OPENROUTER) :
    openrouter_step cfg w text = openrouter_step cfg' w text := by
  unfold openrouter_step
  rw [h]

/-- UTF-8 byte size distributes over string concatenation. -/
theorem strSize_append (a b : String) :
    (a ++ b).utf8ByteSize = a.utf8ByteSize + b.utf8ByteSize := by
  rcases a with ⟨da⟩
  rcases b with ⟨db⟩
  show String.utf8ByteSize ⟨da ++ db⟩ = _
  simp [String.utf8ByteSize_mk, String.utf8Len_append]

/-- The JSON escape of `n` copies of `'a'` is `n` bytes long. -/
theorem pyEscAux_replicate_a (n : Nat) :
    (pyEscAux (List.replicate n 'a')).utf8ByteSize = n := by
  induction n with
  | zero => rfl
  | succ m ih =>
    rw [List.replicate_succ]
    show (pyEscapeChar 'a' ++ pyEscAux (List.replicate m 'a')).utf8ByteSize = m + 1
    rw [strSize_append]
    have h1 : pyEscapeChar 'a' = "a" := by decide
    have h2 : "a".utf8ByteSize = 1 := by decide
    rw [h1, ih, h2]
    omega

/-- The serialized DynamoDB item is at least as large as the escaped text
field it embeds. -/
theorem pyJsonDumpsItem_lower (key bucket text summary : String) :
    (pyEscAux text.data).utf8ByteSize ≤
      (pyJsonDumpsItem key bucket text summary).utf8ByteSize := by
  unfold pyJsonDumpsItem pyJsonDumpsStr
  simp only [strSize_append]
  omega

/-! ### Concrete instances used by witnesses and counterexamples -/

/-- A concrete execution context. -/
def ctx0 : Ctx := { log_stream_name := "2025/10/12/[$LATEST]abc123" }

/-- A concrete environment configuration. -/
def env0 : Env := { TABLE_NAME := "summaries-table", TOPIC_ARN := "arn:aws:sns:topic" }

/-- All feature flags enabled (the documented default). -/
def cfgAll : Config :=
  { ENABLE_OPENROUTER := true, ENABLE_DYNAMODB := true, ENABLE_SNS := true }

/-- A world in which every external call succeeds and the LLM always raises
(no network). -/
def w0 : World :=
  { s3GetResult := Except.ok "hello world"
    llmAttempt := fun _ => Except.error "ConnectionError"
    putPolicyError := Option.none
    deletePolicyError := Option.none
    cfnPutError := Option.none
    ddbPutError := Option.none
    snsPublishError := Option.none }

/-- A provisioning event with every CloudFormation field populated. -/
def provEventBase : Event :=
  { RequestType := some "Create"
    ResourceProperties := some { BucketName := some "b1", PolicyDocument := some "{}" }
    Records := Option.none
    PhysicalResourceId := Option.none
    StackId := some "stack-1"
    RequestId := some "req-1"
    LogicalResourceId := some "logical-1"
    ResponseURL := some "http://x" }

/-- A valid S3 ingestion event for object `k1.txt` in bucket `b1`. -/
def s3EventBase : Event :=
  { RequestType := Option.none
    ResourceProperties := Option.none
    Records := some [{ s3 := some { bucket_name := "b1", object_key := "k1.txt" } }]
    PhysicalResourceId := Option.none
    StackId := Option.none
    RequestId := Option.none
    LogicalResourceId := Option.none
    ResponseURL := Option.none }

/-! ### Claim C1 -/

/-- A provisioning event whose request type is not Create/Update/Delete. -/
def c1Event : Event := { provEventBase with RequestType := some "Read" }

/-- Claim C1, counterexample: for the provisioning invocation with request
type `"Read"` (resource properties, bucket name, all identifiers and the
response URL present), NO callback PUT is attempted — not exactly one — so the
claim fails for request types other than Create, Update, Delete. -/
theorem C1_counterexample :
    isProvisioning c1Event = true ∧
    (lambda_handler c1Event ctx0 cfgAll env0 w0).2.filter Effect.isCfnPut = [] := by
  constructor <;> rfl

/-- Claim C1 (amended): for every provisioning invocation whose request type
is Create, Update or Delete (carrying the mandatory StackId, RequestId,
LogicalResourceId and ResponseURL fields of a provisioning request), exactly
one terminal callback PUT is attempted, carrying a Status of either SUCCESS
or FAILED and echoing the event's StackId, RequestId and LogicalResourceId
unchanged — regardless of whether the branch throws.  (For any other request
type no branch executes and no PUT is attempted, per the counterexample.) -/
theorem C1_theorem (evt : Event) (ctx : Ctx) (cfg : Config) (env : Env) (w : World)
    (rp : RProps) (rt bucket sid rid lid url : String)
    (hrt : evt.RequestType = some rt)
    (hcud : rt = "Create" ∨ rt = "Update" ∨ rt = "Delete")
    (hrp : evt.ResourceProperties = some rp) (hb : rp.BucketName = some bucket)
    (hs : evt.StackId = some sid) (hq : evt.RequestId = some rid)
    (hl : evt.LogicalResourceId = some lid) (hu : evt.ResponseURL = some url) :
    ∃ body, (lambda_handler evt ctx cfg env w).2.filter Effect.isCfnPut =
        [Effect.cfnPut url body] ∧
      (body.Status = "SUCCESS" ∨ body.Status = "FAILED") ∧
      body.StackId = sid ∧ body.RequestId = rid ∧ body.LogicalResourceId = lid := by
  have hne : rt ≠ "" := by
    rcases hcud with h | h | h <;> subst h <;> decide
  have hprov : isProvisioning evt = true := by
    simp [isProvisioning, hrt, hrp, hb, optStrTruthy, rpTruthy, hne]
  rw [lambda_handler_prov_trace evt ctx cfg env w hprov]
  rcases hcud with h | h | h
  · rcases apply_bucket_policy_CU evt ctx w rp rt bucket sid rid lid url hrt (Or.inl h)
        hrp hb hs hq hl hu with ⟨st, d, hst, _, hfil⟩
    exact ⟨_, hfil, hst, rfl, rfl, rfl⟩
  · rcases apply_bucket_policy_CU evt ctx w rp rt bucket sid rid lid url hrt (Or.inr h)
        hrp hb hs hq hl hu with ⟨st, d, hst, _, hfil⟩
    exact ⟨_, hfil, hst, rfl, rfl, rfl⟩
  · subst h
    rw [apply_bucket_policy_delete evt ctx w rp bucket sid rid lid url hrt hrp hb hs hq hl hu]
    exact ⟨mkCfnBody ctx "SUCCESS" (evt.PhysicalResourceId.getD ctx.log_stream_name)
        sid rid lid (CfnData.message ("Bucket policy removal completed for " ++ bucket)),
      by simp [Effect.isCfnPut], Or.inl rfl, rfl, rfl, rfl⟩

/-- Witness for C1 at a Create event whose policy application raises. -/
def c1WitWorld : World := { w0 with putPolicyError := some "AccessDenied" }

/-- Claim C1, witness: concrete Create invocation (policy application
raising) satisfying the amended theorem's hypotheses and conclusion. -/
theorem C1_witness :
    provEventBase.RequestType = some "Create" ∧
    c1WitWorld.putPolicyError = some "AccessDenied" ∧
    ∃ body, (lambda_handler provEventBase ctx0 cfgAll env0 c1WitWorld).2.filter
        Effect.isCfnPut = [Effect.cfnPut "http://x" body] ∧
      (body.Status = "SUCCESS" ∨ body.Status = "FAILED") ∧
      body.StackId = "stack-1" ∧ body.RequestId = "req-1" ∧
      body.LogicalResourceId = "logical-1" :=
  ⟨rfl, rfl, C1_theorem provEventBase ctx0 cfgAll env0 c1WitWorld
    { BucketName := some "b1", PolicyDocument := some "{}" }
    "Create" "b1" "stack-1" "req-1" "logical-1" "http://x"
    rfl (Or.inl rfl) rfl rfl rfl rfl rfl rfl⟩

/-! ### Claim C2 -/

/-- Claim C2: for every provisioning invocation with request type Delete
(fields of a provisioning request present), the callback response is exactly
one PUT reporting Status SUCCESS — for every oracle, in particular when the
underlying `delete_bucket_policy` call raises (`w.deletePolicyError`
arbitrary): the removal failure is caught and only logged. -/
theorem C2_theorem (evt : Event) (ctx : Ctx) (cfg : Config) (env : Env) (w : World)
    (rp : RProps) (bucket sid rid lid url : String)
    (hrt : evt.RequestType = some "Delete")
    (hrp : evt.ResourceProperties = some rp) (hb : rp.BucketName = some bucket)
    (hs : evt.StackId = some sid) (hq : evt.RequestId = some rid)
    (hl : evt.LogicalResourceId = some lid) (hu : evt.ResponseURL = some url) :
    (lambda_handler evt ctx cfg env w).2.filter Effect.isCfnPut =
      [Effect.cfnPut url (mkCfnBody ctx "SUCCESS"
        (evt.PhysicalResourceId.getD ctx.log_stream_name) sid rid lid
        (CfnData.message ("Bucket policy removal completed for " ++ bucket)))] := by
  have hprov : isProvisioning evt = true := by
    have hne : ("Delete" : String) ≠ "" := by decide
    simp [isProvisioning, hrt, hrp, hb, optStrTruthy, rpTruthy, hne]
  rw [lambda_handler_prov_trace evt ctx cfg env w hprov]
  rw [apply_bucket_policy_delete evt ctx w rp bucket sid rid lid url hrt hrp hb hs hq hl hu]
  simp [Effect.isCfnPut]

/-- A Delete provisioning event. -/
def c2Event : Event := { provEventBase with RequestType := some "Delete" }

/-- A world where the bucket-policy removal raises. -/
def c2World : World := { w0 with deletePolicyError := some "NoSuchBucketPolicy" }

/-- Claim C2, witness: a Delete invocation whose policy removal raises still
attempts exactly one PUT with Status SUCCESS. -/
theorem C2_witness :
    c2Event.RequestType = some "Delete" ∧
    c2World.deletePolicyError = some "NoSuchBucketPolicy" ∧
    (lambda_handler c2Event ctx0 cfgAll env0 c2World).2.filter Effect.isCfnPut =
      [Effect.cfnPut "http://x" (mkCfnBody ctx0 "SUCCESS"
        (c2Event.PhysicalResourceId.getD ctx0.log_stream_name)
        "stack-1" "req-1" "logical-1"
        (CfnData.message ("Bucket policy removal completed for " ++ "b1")))] :=
  ⟨rfl, rfl, C2_theorem c2Event ctx0 cfgAll env0 c2World
    { BucketName := some "b1", PolicyDocument := some "{}" }
    "b1" "stack-1" "req-1" "logical-1" "http://x" rfl rfl rfl rfl rfl rfl rfl⟩

/-! ### Claim C3 -/

/-- A provisioning event with no `StackId`. -/
def c3Event : Event := { provEventBase with StackId := Option.none }

/-- Claim C3, counterexample: the reporter builds the response body BEFORE its
`try` block, so on an event lacking `StackId` the `KeyError` propagates to the
caller (no boolean is returned) and no PUT is attempted — refuting "never
propagates an exception for any input event". -/
theorem C3_counterexample :
    (send_cfn_response c3Event ctx0 w0 "SUCCESS" CfnData.empty).1 =
      Except.error "KeyError: StackId" ∧
    (send_cfn_response c3Event ctx0 w0 "SUCCESS" CfnData.empty).2 = [] := by
  constructor <;> rfl

/-- Claim C3 (amended): for every event carrying `StackId`, `RequestId`,
`LogicalResourceId` and a response URL, the reporter performs a single HTTP
PUT, returns a boolean success indicator (true exactly when the transport
call succeeds) and never propagates an exception: transport failures are
caught, logged and reported as `false`, with no retry. -/
theorem C3_theorem (evt : Event) (ctx : Ctx) (w : World) (status : String) (d : CfnData)
    (sid rid lid url : String)
    (hs : evt.StackId = some sid) (hq : evt.RequestId = some rid)
    (hl : evt.LogicalResourceId = some lid) (hu : evt.ResponseURL = some url) :
    ∃ b : Bool, send_cfn_response evt ctx w status d =
      (Except.ok b, [Effect.cfnPut url (mkCfnBody ctx status
        (evt.PhysicalResourceId.getD ctx.log_stream_name) sid rid lid d)]) ∧
      (b = true ↔ w.cfnPutError = Option.none) := by
  refine ⟨w.cfnPutError.isNone,
    send_cfn_response_eq evt ctx w status d sid rid lid url hs hq hl hu, ?_⟩
  cases h : w.cfnPutError <;> simp

/-- A world whose callback transport raises. -/
def c3World : World := { w0 with cfnPutError := some "ConnectTimeout" }

/-- Claim C3, witness: with a failing transport the reporter still returns a
boolean (false) after attempting its single PUT. -/
theorem C3_witness :
    provEventBase.StackId = some "stack-1" ∧
    c3World.cfnPutError = some "ConnectTimeout" ∧
    ∃ b : Bool, send_cfn_response provEventBase ctx0 c3World "SUCCESS" CfnData.empty =
      (Except.ok b, [Effect.cfnPut "http://x" (mkCfnBody ctx0 "SUCCESS"
        (provEventBase.PhysicalResourceId.getD ctx0.log_stream_name)
        "stack-1" "req-1" "logical-1" CfnData.empty)]) ∧
      (b = true ↔ c3World.cfnPutError = Option.none) :=
  ⟨rfl, rfl, C3_theorem provEventBase ctx0 c3World "SUCCESS" CfnData.empty
    "stack-1" "req-1" "logical-1" "http://x" rfl rfl rfl rfl⟩

/-! ### Claim C4 -/

/-- Claim C4: for every valid ingestion event whose fetch succeeds, the
summary after the summarize step equals either the LLM response's first
choice's message content (from a successful attempt within the retry budget)
or the placeholder "Résumé non généré." — the placeholder is kept when
summarization is disabled, when the response has no choices or empty/absent
content, or when every attempt raises — and the entry point returns the
success result, with no exception surfacing past it. -/
theorem C4_theorem (evt : Event) (ctx : Ctx) (cfg : Config) (env : Env) (w : World)
    (info : S3Info) (text : String)
    (hprov : isProvisioning evt = false) (hrec : recordsS3 evt = some info)
    (hfetch : w.s3GetResult = Except.ok text) :
    ((openrouter_step cfg w text).1 = placeholderSummary ∨
      ∃ j, j < 3 ∧ ∃ resp, w.llmAttempt j = Except.ok resp ∧
        ∃ ch rest, resp.choices = ch :: rest ∧
          ch.message.content = some (openrouter_step cfg w text).1) ∧
    (lambda_handler evt ctx cfg env w).1 = PyVal.result 200 (pyJsonDumpsStr "Success") := by
  constructor
  · by_cases hflag : cfg.ENABLE_OPENROUTER
    · have hstep : (openrouter_step cfg w text).1 =
          summary_of_resp (call_openrouter w text).1 := by
        unfold openrouter_step
        rw [if_pos hflag]
      rcases hres : (call_openrouter w text).1 with e | resp
      · left
        rw [hstep, hres]
        rfl
      · rcases retryLoop_ok_attempt w (openrouterPrompt text) 3 0 resp hres with
          ⟨j, _, hj3, hatt⟩
        rcases hch : resp.choices with _ | ⟨ch, rest⟩
        · left
          rw [hstep, hres]
          simp [summary_of_resp, hch]
        · rcases hco : ch.message.content with _ | c
          · left
            rw [hstep, hres]
            simp [summary_of_resp, hch, hco]
          · by_cases hc : (c != "") = true
            · right
              refine ⟨j, by omega, resp, hatt, ch, rest, hch, ?_⟩
              rw [hstep, hres]
              simp [summary_of_resp, hch, hco, hc]
            · left
              rw [hstep, hres]
              simp only [summary_of_resp, hch, hco]
              rw [if_neg hc]
    · have : openrouter_step cfg w text = (placeholderSummary, []) := by
        unfold openrouter_step
        rw [if_neg hflag]
      left
      rw [this]
  · rw [lambda_handler_ingestion evt ctx cfg env w info text hprov hrec hfetch]

/-- A world whose first LLM attempt succeeds with content "Bonjour.". -/
def c4World : World :=
  { w0 with llmAttempt := fun _ =>
      Except.ok { choices := [{ message := { content := some "Bonjour." } }] } }

/-- Claim C4, witness: concrete valid ingestion event, fetch succeeding, LLM
returning "Bonjour.". -/
theorem C4_witness :
    isProvisioning s3EventBase = false ∧
    recordsS3 s3EventBase = some { bucket_name := "b1", object_key := "k1.txt" } ∧
    c4World.s3GetResult = Except.ok "hello world" ∧
    (((openrouter_step cfgAll c4World "hello world").1 = placeholderSummary ∨
      ∃ j, j < 3 ∧ ∃ resp, c4World.llmAttempt j = Except.ok resp ∧
        ∃ ch rest, resp.choices = ch :: rest ∧
          ch.message.content = some (openrouter_step cfgAll c4World "hello world").1) ∧
     (lambda_handler s3EventBase ctx0 cfgAll env0 c4World).1 =
       PyVal.result 200 (pyJsonDumpsStr "Success")) :=
  ⟨rfl, rfl, rfl,
    C4_theorem s3EventBase ctx0 cfgAll env0 c4World
      { bucket_name := "b1", object_key := "k1.txt" } "hello world" rfl rfl rfl⟩

/-! ### Claim C7 -/

/-- Claim C7: for events on the ingestion route, the entry point returns
`{'statusCode': 200, 'body': json.dumps('Success')}` whenever the flow
completes without a fetch-stage failure, and
`{'statusCode': 500, 'body': json.dumps('Lambda error')}` for every
unisolated failure: an invalid S3 event shape (missing `Records`, empty
`Records`, or first record without `s3`) and a failing fetch each yield the
500 result, with no exception propagating uncaught. -/
theorem C7_theorem (evt : Event) (ctx : Ctx) (cfg : Config) (env : Env) (w : World)
    (hprov : isProvisioning evt = false) :
    (∀ info text, recordsS3 evt = some info → w.s3GetResult = Except.ok text →
      (lambda_handler evt ctx cfg env w).1 = PyVal.result 200 (pyJsonDumpsStr "Success")) ∧
    (recordsS3 evt = Option.none →
      lambda_handler evt ctx cfg env w =
        (PyVal.result 500 (pyJsonDumpsStr "Lambda error"), [])) ∧
    (∀ info e, recordsS3 evt = some info → w.s3GetResult = Except.error e →
      (lambda_handler evt ctx cfg env w).1 =
        PyVal.result 500 (pyJsonDumpsStr "Lambda error")) := by
  refine ⟨?_, ?_, ?_⟩
  · intro info text h1 h2
    rw [lambda_handler_ingestion evt ctx cfg env w info text hprov h1 h2]
  · intro h
    exact lambda_handler_invalid evt ctx cfg env w hprov h
  · intro info e h1 h2
    rw [lambda_handler_fetchFail evt ctx cfg env w info e hprov h1 h2]

/-- An event with no `Records` key at all (and not provisioning-shaped). -/
def c7Event : Event := { s3EventBase with Records := Option.none }

/-- Claim C7, witness: the event missing `Records` yields statusCode 500 with
body `json.dumps('Lambda error')`. -/
theorem C7_witness :
    isProvisioning c7Event = false ∧
    recordsS3 c7Event = Option.none ∧
    lambda_handler c7Event ctx0 cfgAll env0 w0 =
      (PyVal.result 500 (pyJsonDumpsStr "Lambda error"), []) :=
  ⟨rfl, rfl, (C7_theorem c7Event ctx0 cfgAll env0 w0 rfl).2.1 rfl⟩

/-! ### Claim C8 -/

/-- Claim C8: `call_openrouter` makes at most 3 total attempts of the
inference call; it retries on ANY exception (if every attempt in the window
raises, exactly 3 attempts are made and the exception propagates to the
caller); and if attempt `m < 3` succeeds after `m` failed attempts, the call
returns that response after exactly `m + 1` attempts — it never makes a
fourth attempt. -/
theorem C8_theorem (w : World) (text : String) :
    (call_openrouter w text).2.length ≤ 3 ∧
    ((∀ j, j < 3 → ∃ e, w.llmAttempt j = Except.error e) →
      (∃ e, (call_openrouter w text).1 = Except.error e) ∧
      (call_openrouter w text).2.length = 3) ∧
    (∀ m resp, m < 3 → w.llmAttempt m = Except.ok resp →
      (∀ j, j < m → ∃ e, w.llmAttempt j = Except.error e) →
      (call_openrouter w text).1 = Except.ok resp ∧
      (call_openrouter w text).2.length = m + 1) := by
  refine ⟨?_, ?_, ?_⟩
  · rcases retryLoop_trace w (openrouterPrompt text) 3 0 with ⟨k, hk, _, htr⟩
    have : (call_openrouter w text).2 = List.replicate k (Effect.llmCall (openrouterPrompt text)) := htr
    rw [this, List.length_replicate]
    exact hk
  · intro hall
    exact retryLoop_allFail w (openrouterPrompt text) 3 0 (by omega)
      (fun j h1 h2 => hall j (by omega))
  · intro m resp hm hok hprev
    have h := retryLoop_firstOk w (openrouterPrompt text) 3 0 m resp (by omega) (by omega)
      hok (fun j h1 h2 => hprev j h2)
    have h2 : (call_openrouter w text).2.length = m - 0 + 1 := h.2
    exact ⟨h.1, by rw [h2]; omega⟩

/-- Claim C8, witness: with every attempt raising, the call makes exactly 3
attempts and propagates an exception. -/
theorem C8_witness :
    (∀ j, j < 3 → ∃ e, w0.llmAttempt j = Except.error e) ∧
    (∃ e, (call_openrouter w0 "hello").1 = Except.error e) ∧
    (call_openrouter w0 "hello").2.length = 3 :=
  ⟨fun j _ => ⟨"ConnectionError", rfl⟩,
    ((C8_theorem w0 "hello").2.1 (fun j _ => ⟨"ConnectionError", rfl⟩)).1,
    ((C8_theorem w0 "hello").2.1 (fun j _ => ⟨"ConnectionError", rfl⟩)).2⟩

/-! ### Claim C5 -/

/-- Claim C5: with persistence enabled, when the serialized SummaryRecord
exceeds 400,000 bytes the size check raises before the write, so no store
write is attempted in the whole invocation — and the flow still reaches the
notify step: with notification enabled an SNS publish occurs. -/
theorem C5_theorem (evt : Event) (ctx : Ctx) (cfg : Config) (env : Env) (w : World)
    (info : S3Info) (text : String)
    (hprov : isProvisioning evt = false) (hrec : recordsS3 evt = some info)
    (hfetch : w.s3GetResult = Except.ok text)
    (hddb : cfg.ENABLE_DYNAMODB = true)
    (hsize : 400000 < (pyJsonDumpsItem info.object_key info.bucket_name text
      (openrouter_step cfg w text).1).utf8ByteSize) :
    (lambda_handler evt ctx cfg env w).2.filter Effect.isDdbPut = [] ∧
    (cfg.ENABLE_SNS = true →
      ∃ subject message, Effect.snsPublish env.TOPIC_ARN subject message ∈
        (lambda_handler evt ctx cfg env w).2) := by
  rw [lambda_handler_ingestion evt ctx cfg env w info text hprov hrec hfetch]
  have hddbstep : dynamodb_step cfg env w info.object_key info.bucket_name text
      (openrouter_step cfg w text).1 = [] := by
    unfold dynamodb_step
    rw [if_pos hddb, if_pos hsize]
  constructor
  · rw [hddbstep]
    apply List.filter_eq_nil_iff.mpr
    intro a ha
    rcases List.mem_cons.mp ha with rfl | h2
    · simp [Effect.isDdbPut]
    rcases List.mem_append.mp h2 with h3 | h4
    · rcases List.mem_append.mp h3 with h5 | h6
      · rw [openrouter_step_mem cfg w text a h5]
        simp [Effect.isDdbPut]
      · simp at h6
    · rw [sns_step_mem cfg env w _ _ _ a h4]
      simp [Effect.isDdbPut]
  · intro hsns
    refine ⟨"Nouveau fichier dans S3 : " ++ info.object_key,
      "Un fichier nommé \x27" ++ info.object_key ++ "\x27 a été déposé dans le bucket \x27" ++
        info.bucket_name ++ "\x27.\n\nRésumé du contenu :\n\n" ++
        ((openrouter_step cfg w text).1.take 1000), ?_⟩
    apply List.mem_cons_of_mem
    apply List.mem_append_right
    unfold sns_step sns_publish
    rw [if_pos hsns]
    exact List.mem_singleton_self _

/-- A 400,001-character source text. -/
def bigText : String := String.mk (List.replicate 400001 'a')

/-- Summarization off, persistence and notification on. -/
def cfg5 : Config :=
  { ENABLE_OPENROUTER := false, ENABLE_DYNAMODB := true, ENABLE_SNS := true }

/-- A world whose fetch yields the oversized text. -/
def w5 : World := { w0 with s3GetResult := Except.ok bigText }

/-- Claim C5, witness: a fetched 400,001-character text makes the serialized
record exceed 400,000 bytes; no store write occurs and the notify step still
publishes. -/
theorem C5_witness :
    isProvisioning s3EventBase = false ∧
    recordsS3 s3EventBase = some { bucket_name := "b1", object_key := "k1.txt" } ∧
    w5.s3GetResult = Except.ok bigText ∧
    cfg5.ENABLE_DYNAMODB = true ∧
    400000 < (pyJsonDumpsItem "k1.txt" "b1" bigText
      (openrouter_step cfg5 w5 bigText).1).utf8ByteSize ∧
    ((lambda_handler s3EventBase ctx0 cfg5 env0 w5).2.filter Effect.isDdbPut = [] ∧
     (cfg5.ENABLE_SNS = true →
       ∃ subject message, Effect.snsPublish env0.TOPIC_ARN subject message ∈
         (lambda_handler s3EventBase ctx0 cfg5 env0 w5).2)) := by
  have hsum : (openrouter_step cfg5 w5 bigText).1 = placeholderSummary := rfl
  have hsize : 400000 < (pyJsonDumpsItem "k1.txt" "b1" bigText
      (openrouter_step cfg5 w5 bigText).1).utf8ByteSize := by
    rw [hsum]
    have h2 : (pyEscAux bigText.data).utf8ByteSize = 400001 := by
      have hdata : bigText.data = List.replicate 400001 'a' := rfl
      rw [hdata, pyEscAux_replicate_a]
    have h3 := pyJsonDumpsItem_lower "k1.txt" "b1" bigText placeholderSummary
    omega
  exact ⟨rfl, rfl, rfl, rfl, hsize,
    C5_theorem s3EventBase ctx0 cfg5 env0 w5
      { bucket_name := "b1", object_key := "k1.txt" } bigText rfl rfl rfl rfl hsize⟩

/-! ### Claim C6 helper filters -/

/-- The persist step contributes nothing outside the flag-controlled class. -/
theorem dynamodb_step_filter_nonFlagged (cfg : Config) (env : Env) (w : World)
    (key bucket text summary : String) :
    (dynamodb_step cfg env w key bucket text summary).filter Effect.nonFlagged = [] := by
  apply List.filter_eq_nil_iff.mpr
  intro a ha
  rw [dynamodb_step_mem cfg env w key bucket text summary a ha]
  simp [Effect.nonFlagged, Effect.isDdbPut, Effect.isSnsPublish]

/-- The notify step contributes nothing outside the flag-controlled class. -/
theorem sns_step_filter_nonFlagged (cfg : Config) (env : Env) (w : World)
    (key bucket summary : String) :
    (sns_step cfg env w key bucket summary).filter Effect.nonFlagged = [] := by
  apply List.filter_eq_nil_iff.mpr
  intro a ha
  rw [sns_step_mem cfg env w key bucket summary a ha]
  simp [Effect.nonFlagged, Effect.isDdbPut, Effect.isSnsPublish]

/-! ### Claim C6 -/

/-- Claim C6: for every invocation, disabling the persistence flag yields
zero store-write attempts and disabling the notification flag yields zero
publish attempts; moreover the return value and every effect other than the
store write and the publish are unchanged by those two flags (for any two
configurations agreeing on the summarization flag). -/
theorem C6_theorem (evt : Event) (ctx : Ctx) (env : Env) (w : World)
    (cfg cfg' : Config)
    (hor : cfg.ENABLE_OPENROUTER = cfg'.ENABLE_OPENROUTER) :
    (cfg.ENABLE_DYNAMODB = false →
      (lambda_handler evt ctx cfg env w).2.filter Effect.isDdbPut = []) ∧
    (cfg.ENABLE_SNS = false →
      (lambda_handler evt ctx cfg env w).2.filter Effect.isSnsPublish = []) ∧
    (lambda_handler evt ctx cfg env w).1 = (lambda_handler evt ctx cfg' env w).1 ∧
    (lambda_handler evt ctx cfg env w).2.filter Effect.nonFlagged =
      (lambda_handler evt ctx cfg' env w).2.filter Effect.nonFlagged := by
  rcases hprov : isProvisioning evt with _ | _
  · rcases hrec : recordsS3 evt with _ | info
    · rw [lambda_handler_invalid evt ctx cfg env w hprov hrec,
        lambda_handler_invalid evt ctx cfg' env w hprov hrec]
      exact ⟨fun _ => rfl, fun _ => rfl, rfl, rfl⟩
    · rcases hfetch : w.s3GetResult with e | text
      · rw [lambda_handler_fetchFail evt ctx cfg env w info e hprov hrec hfetch,
          lambda_handler_fetchFail evt ctx cfg' env w info e hprov hrec hfetch]
        exact ⟨fun _ => rfl, fun _ => rfl, rfl, rfl⟩
      · rw [lambda_handler_ingestion evt ctx cfg env w info text hprov hrec hfetch,
          lambda_handler_ingestion evt ctx cfg' env w info text hprov hrec hfetch,
          openrouter_step_flag cfg cfg' w text hor]
        refine ⟨?_, ?_, rfl, ?_⟩
        · intro hdd
          have hd0 : dynamodb_step cfg env w info.object_key info.bucket_name text
              (openrouter_step cfg' w text).1 = [] := by
            unfold dynamodb_step
            rw [hdd]
            simp
          rw [hd0]
          apply List.filter_eq_nil_iff.mpr
          intro a ha
          rcases List.mem_cons.mp ha with rfl | hx
          · simp [Effect.isDdbPut]
          rcases List.mem_append.mp hx with hy | hz
          · rcases List.mem_append.mp hy with hu' | hv
            · rw [openrouter_step_mem cfg' w text a hu']
              simp [Effect.isDdbPut]
            · simp at hv
          · rw [sns_step_mem cfg env w _ _ _ a hz]
            simp [Effect.isDdbPut]
        · intro hsn
          have hs0 : sns_step cfg env w info.object_key info.bucket_name
              (openrouter_step cfg' w text).1 = [] := by
            unfold sns_step
            rw [hsn]
            simp
          rw [hs0]
          apply List.filter_eq_nil_iff.mpr
          intro a ha
          rcases List.mem_cons.mp ha with rfl | hx
          · simp [Effect.isSnsPublish]
          rcases List.mem_append.mp hx with hy | hz
          · rcases List.mem_append.mp hy with hu' | hv
            · rw [openrouter_step_mem cfg' w text a hu']
              simp [Effect.isSnsPublish]
            · rw [dynamodb_step_mem cfg env w _ _ _ _ a hv]
              simp [Effect.isSnsPublish]
          · simp at hz
        · simp only [List.filter_cons, List.filter_append,
            dynamodb_step_filter_nonFlagged, sns_step_filter_nonFlagged]
  · have heq : lambda_handler evt ctx cfg env w = lambda_handler evt ctx cfg' env w := by
      simp [lambda_handler, hprov]
    refine ⟨?_, ?_, by rw [heq], by rw [heq]⟩
    · intro _
      rw [lambda_handler_prov_trace evt ctx cfg env w hprov]
      apply List.filter_eq_nil_iff.mpr
      intro a ha
      have h := (apply_bucket_policy_all evt ctx w a ha).1
      simp [h]
    · intro _
      rw [lambda_handler_prov_trace evt ctx cfg env w hprov]
      apply List.filter_eq_nil_iff.mpr
      intro a ha
      have h := (apply_bucket_policy_all evt ctx w a ha).2.1
      simp [h]

/-- All feature flags disabled. -/
def cfgOff : Config :=
  { ENABLE_OPENROUTER := false, ENABLE_DYNAMODB := false, ENABLE_SNS := false }

/-- Claim C6, witness: with persistence and notification disabled, the
concrete ingestion invocation performs zero writes and zero publishes, and
its result and non-flagged effects match the run with both flags enabled. -/
theorem C6_witness :
    cfgOff.ENABLE_OPENROUTER = cfg5.ENABLE_OPENROUTER ∧
    cfgOff.ENABLE_DYNAMODB = false ∧ cfgOff.ENABLE_SNS = false ∧
    (lambda_handler s3EventBase ctx0 cfgOff env0 w0).2.filter Effect.isDdbPut = [] ∧
    (lambda_handler s3EventBase ctx0 cfgOff env0 w0).2.filter Effect.isSnsPublish = [] ∧
    (lambda_handler s3EventBase ctx0 cfgOff env0 w0).1 =
      (lambda_handler s3EventBase ctx0 cfg5 env0 w0).1 ∧
    (lambda_handler s3EventBase ctx0 cfgOff env0 w0).2.filter Effect.nonFlagged =
      (lambda_handler s3EventBase ctx0 cfg5 env0 w0).2.filter Effect.nonFlagged := by
  have h := C6_theorem s3EventBase ctx0 env0 w0 cfgOff cfg5 rfl
  exact ⟨rfl, rfl, rfl, h.1 rfl, h.2.1 rfl, h.2.2.1, h.2.2.2⟩

/-! ### Claim C9 -/

/-- An event with a request type AND a valid S3 records structure but no
resource properties: it routes to ingestion and can succeed. -/
def c9Event : Event := { s3EventBase with RequestType := some "Create" }

/-- Claim C9, counterexample: an event with non-empty request type and no
resource-properties map, but carrying a valid records structure, routes to
ingestion and returns the 200 success result — not the generic 500 failure
the claim asserts for every such event. -/
theorem C9_counterexample :
    optStrTruthy c9Event.RequestType = true ∧
    c9Event.ResourceProperties = Option.none ∧
    (lambda_handler c9Event ctx0 cfgOff env0 w0).1 =
      PyVal.result 200 (pyJsonDumpsStr "Success") := by
  refine ⟨rfl, rfl, ?_⟩
  rfl

/-- Claim C9 (amended): for every event carrying a non-empty request-type
field but whose resource-properties map is absent or lacks a BucketName
sub-field, the handler does not route to provisioning — no callback PUT is
attempted — and if the event additionally lacks a valid records structure it
returns the generic 500 failure result. -/
theorem C9_theorem (evt : Event) (ctx : Ctx) (cfg : Config) (env : Env) (w : World)
    (hrt : optStrTruthy evt.RequestType = true)
    (hbn : ∀ rp, evt.ResourceProperties = some rp → rp.BucketName = Option.none) :
    (lambda_handler evt ctx cfg env w).2.filter Effect.isCfnPut = [] ∧
    (recordsS3 evt = Option.none →
      (lambda_handler evt ctx cfg env w).1 =
        PyVal.result 500 (pyJsonDumpsStr "Lambda error")) := by
  have hprov : isProvisioning evt = false := by
    unfold isProvisioning
    rcases hrp : evt.ResourceProperties with _ | rp
    · simp
    · have hb := hbn rp hrp
      simp [hb]
  exact ⟨lambda_handler_noCfn evt ctx cfg env w hprov,
    fun hrec => by rw [lambda_handler_invalid evt ctx cfg env w hprov hrec]⟩

/-- A provisioning-shaped event with no resource properties and no records. -/
def c9bEvent : Event := { c7Event with RequestType := some "Create" }

/-- Claim C9, witness for the amended claim: request type present, resource
properties absent, no records — zero PUTs and the 500 result. -/
theorem C9_witness :
    optStrTruthy c9bEvent.RequestType = true ∧
    c9bEvent.ResourceProperties = Option.none ∧
    ((lambda_handler c9bEvent ctx0 cfgAll env0 w0).2.filter Effect.isCfnPut = [] ∧
     (recordsS3 c9bEvent = Option.none →
       (lambda_handler c9bEvent ctx0 cfgAll env0 w0).1 =
         PyVal.result 500 (pyJsonDumpsStr "Lambda error"))) :=
  ⟨rfl, rfl, C9_theorem c9bEvent ctx0 cfgAll env0 w0 rfl (fun rp h => by cases h)⟩

/-! ### Claim C10 -/

/-- Claim C10: every callback PUT attempted by any invocation carries a
PhysicalResourceId equal to the event's caller-supplied value when present
and otherwise the context's log-stream identifier, and a Reason naming that
same log-stream identifier. -/
theorem C10_theorem (evt : Event) (ctx : Ctx) (cfg : Config) (env : Env) (w : World)
    (url : String) (body : CfnBody)
    (h : Effect.cfnPut url body ∈ (lambda_handler evt ctx cfg env w).2) :
    body.PhysicalResourceId = evt.PhysicalResourceId.getD ctx.log_stream_name ∧
    body.Reason = "See CloudWatch Log Stream: " ++ ctx.log_stream_name := by
  rcases hprov : isProvisioning evt with _ | _
  · exfalso
    have hmem : Effect.cfnPut url body ∈
        (lambda_handler evt ctx cfg env w).2.filter Effect.isCfnPut :=
      List.mem_filter.mpr ⟨h, rfl⟩
    rw [lambda_handler_noCfn evt ctx cfg env w hprov] at hmem
    simp at hmem
  · rw [lambda_handler_prov_trace evt ctx cfg env w hprov] at h
    exact (apply_bucket_policy_all evt ctx w _ h).2.2 url body rfl

/-- The callback body of the successful Create run used as C10's witness. -/
def c10Body : CfnBody :=
  mkCfnBody ctx0 "SUCCESS" ctx0.log_stream_name "stack-1" "req-1" "logical-1"
    (CfnData.message "Bucket policy applied successfully to b1")

/-- Claim C10, witness: the PUT of a concrete successful Create invocation
carries the defaulted PhysicalResourceId and the log-stream Reason. -/
theorem C10_witness :
    Effect.cfnPut "http://x" c10Body ∈
      (lambda_handler provEventBase ctx0 cfgAll env0 w0).2 ∧
    c10Body.PhysicalResourceId = provEventBase.PhysicalResourceId.getD ctx0.log_stream_name ∧
    c10Body.Reason = "See CloudWatch Log Stream: " ++ ctx0.log_stream_name :=
  ⟨by decide,
    (C10_theorem provEventBase ctx0 cfgAll env0 w0 "http://x" c10Body (by decide)).1,
    (C10_theorem provEventBase ctx0 cfgAll env0 w0 "http://x" c10Body (by decide)).2⟩
